import Mathlib

/-!
Shallow embedding of the lost-and-found backend (src/server.py).

The persistent store (SQLite tables Items, Claims, ItemStatus, Employees)
is modelled as lists of records.  Dates and timestamps are modelled as
rationals holding their julian-day value, so that the SQL expression
julianday(x) - julianday(y) becomes plain subtraction; the current time is
passed to each operation as an explicit parameter.  Each HTTP handler
becomes a function from the store (plus its request data) to the new store
paired with its response.
-/

namespace LostFound

/-- Claim verification states: Pending is initial, the other two terminal. -/
inductive VStatus where
  | Pending
  | Approved
  | Rejected
deriving DecidableEq

/-- A row of the Items table. -/
structure Item where
  id : Nat
  name : String
  category : String
  description : String
  color : String
  dateFound : ℚ
  foundAt : String
  isClaimed : Bool
  dateUpdated : ℚ
deriving DecidableEq

/-- A row of the Claims table. -/
structure Claim where
  id : Nat
  itemID : Nat
  claimDate : ℚ
  verificationCode : String
  ownerFirstName : String
  ownerLastName : String
  verificationStatus : VStatus
  handledBy : Option Nat
deriving DecidableEq

/-- A row of the ItemStatus history table. -/
structure ItemStatusRow where
  itemID : Nat
  status : String
  statusDate : ℚ
deriving DecidableEq

/-- A row of the Employees table. -/
structure Employee where
  id : Nat
  firstName : String
  lastName : String
  position : String
  itemsManaged : Nat
deriving DecidableEq

/-- The whole persistent store. -/
structure DB where
  items : List Item
  claims : List Claim
  itemStatus : List ItemStatusRow
  employees : List Employee
deriving DecidableEq

/-- SQLite CAST(r AS INTEGER) on a REAL value: truncation toward zero
(t-division of the reduced numerator by the denominator). -/
def castInt (q : ℚ) : ℤ :=
  q.num.tdiv q.den

/-- Executable floor of a rational (e-division of numerator by
denominator). -/
def ratFloor (q : ℚ) : ℤ :=
  q.num / q.den

/-- One row of the response of GET /api/items, as selected by the query in
get_items (column aliases kept as field names). -/
structure ItemView where
  itemID : Nat
  itemName : String
  itemDescription : String
  itemCategory : String
  color : String
  dateFound : ℚ
  FoundAt : String
  isClaimed : Bool
  DaysUnclaimed : ℤ
deriving DecidableEq

/-- The row mapping of the get_items SELECT list. -/
def itemView (now : ℚ) (i : Item) : ItemView :=
  { itemID := i.id
    itemName := i.name
    itemDescription := i.description
    itemCategory := i.category
    color := i.color
    dateFound := i.dateFound
    FoundAt := i.foundAt
    isClaimed := i.isClaimed
    DaysUnclaimed := castInt (now - i.dateFound) }

/-- GET /api/items: all rows of Items with isClaimed = 0, ordered by
dateFound descending, each with the derived DaysUnclaimed column.  The
handler only reads, so the store is returned unchanged. -/
def get_items (db : DB) (now : ℚ) : DB × List ItemView :=
  (db,
   ((db.items.filter (fun i => i.isClaimed = false)).mergeSort
      (fun a b => decide (b.dateFound ≤ a.dateFound))).map (itemView now))

/-- The JSON body of POST /api/items: each of the six required keys is
present (some) or absent (none).  The date is carried as its julian-day
value. -/
structure ItemRequest where
  itemName : Option String
  itemCategory : Option String
  color : Option String
  itemDescription : Option String
  dateFound : Option ℚ
  FoundAt : Option String
deriving DecidableEq

/-- The record returned by add_item on success (the SELECT after the
INSERT, which omits isClaimed and dateUpdated). -/
structure CreatedItemView where
  itemID : Nat
  itemName : String
  itemCategory : String
  itemDescription : String
  color : String
  dateFound : ℚ
  FoundAt : String
deriving DecidableEq

/-- Outcome of POST /api/items. -/
inductive AddItemResult where
  | created (item : CreatedItemView)
  | validationError
deriving DecidableEq

/-- The HTTP status add_item sends with each outcome. -/
def addItemHttpStatus : AddItemResult → Nat
  | .created _ => 201
  | .validationError => 400

/-- The rowid SQLite assigns to a fresh INSERT: one more than the largest
existing rowid (zero when the table is empty). -/
def nextRowId (items : List Item) : Nat :=
  (items.foldr (fun i m => max i.id m) 0) + 1

/-- POST /api/items: checks that all six required keys are present in the
body (values are not inspected further), then inserts a row with
isClaimed = 0 and dateUpdated = now and returns the created record. -/
def add_item (db : DB) (d : ItemRequest) (now : ℚ) : DB × AddItemResult :=
  match d.itemName, d.itemCategory, d.color, d.itemDescription,
        d.dateFound, d.FoundAt with
  | some nm, some cat, some col, some desc, some df, some fa =>
      let newId := nextRowId db.items
      ({ db with items := db.items ++
          [{ id := newId, name := nm, category := cat, description := desc,
             color := col, dateFound := df, foundAt := fa,
             isClaimed := false, dateUpdated := now }] },
       .created
         { itemID := newId, itemName := nm, itemCategory := cat,
           itemDescription := desc, color := col, dateFound := df,
           FoundAt := fa })
  | _, _, _, _, _, _ => (db, .validationError)

/-- Outcome of POST /api/claims/:id/approve.  notFound carries HTTP 404
with the body message of the source (Claim not found or already
processed); storageError carries HTTP 500 with the exception text. -/
inductive ApproveResult where
  | ok (claimID : Nat) (itemID : Nat)
  | notFound
  | storageError
deriving DecidableEq

/-- The HTTP status approve_claim sends with each outcome. -/
def approveHttpStatus : ApproveResult → Nat
  | .ok _ _ => 200
  | .notFound => 404
  | .storageError => 500

/-- The three writes inside the approval transaction. -/
inductive WriteStep where
  | updateClaim
  | updateItem
  | insertStatus
deriving DecidableEq

/-- The UPDATE Claims SET verificationStatus = Approved WHERE id = cid
row function. -/
def approveClaimUpdate (cid : Nat) (c : Claim) : Claim :=
  if c.id = cid then { c with verificationStatus := .Approved } else c

/-- The UPDATE Items SET isClaimed = 1, dateUpdated = now WHERE id = iid
row function. -/
def approveItemUpdate (iid : Nat) (now : ℚ) (i : Item) : Item :=
  if i.id = iid then { i with isClaimed := true, dateUpdated := now } else i

/-- POST /api/claims/:id/approve, with the transaction made explicit: the
writes build up an uncommitted state that becomes visible only at the
final commit.  failAt injects a storage failure at one of the three
writes; the except branch of the source then rolls the transaction back,
so the store reverts to its pre-transaction value and a 500 is sent. -/
def approve_claim_tx (db : DB) (claim_id : Nat) (now : ℚ)
    (failAt : Option WriteStep) : DB × ApproveResult :=
  match db.claims.find?
      (fun c => decide (c.id = claim_id ∧ c.verificationStatus = .Pending)) with
  | none => (db, .notFound)
  | some row =>
      let item_id := row.itemID
      if failAt = some .updateClaim then (db, .storageError) else
      let afterClaim :=
        { db with claims := db.claims.map (approveClaimUpdate claim_id) }
      if failAt = some .updateItem then (db, .storageError) else
      let afterItem :=
        { afterClaim with
            items := afterClaim.items.map (approveItemUpdate item_id now) }
      if failAt = some .insertStatus then (db, .storageError) else
      let afterStatus :=
        { afterItem with itemStatus := afterItem.itemStatus ++
            [{ itemID := item_id, status := "Claimed", statusDate := now }] }
      (afterStatus, .ok claim_id item_id)

/-- The approval handler as executed when no storage failure occurs. -/
def approve_claim (db : DB) (claim_id : Nat) (now : ℚ) : DB × ApproveResult :=
  approve_claim_tx db claim_id now none

/-- One entry of the GET /api/metrics response. -/
structure MetricEntry where
  Status : String
  TotalItems : Nat
  AverageDaysUnclaimed : ℚ
deriving DecidableEq

/-- Round to the nearest integer, ties to even (the rounding of the
round builtin used by the source on the average). -/
def roundHalfEven (q : ℚ) : ℤ :=
  let f := ratFloor q
  if q - f < 1/2 then f
  else if 1/2 < q - f then f + 1
  else if f % 2 = 0 then f else f + 1

/-- round(q, 2) of the source. -/
def round2 (q : ℚ) : ℚ := (roundHalfEven (q * 100) : ℚ) / 100

/-- GET /api/metrics: count and average age of unclaimed items (AVG over
an empty table is NULL, which the source turns into 0), count of claimed
items with average reported as 0.  Read-only. -/
def get_metrics (db : DB) (now : ℚ) : DB × List MetricEntry :=
  let unclaimedItems := db.items.filter (fun i => i.isClaimed = false)
  let claimedItems := db.items.filter (fun i => i.isClaimed = true)
  let avgDays : ℚ :=
    if unclaimedItems.length = 0 then 0
    else (unclaimedItems.foldr (fun i s => s + (now - i.dateFound)) 0) /
      (unclaimedItems.length : ℚ)
  (db,
   [{ Status := "Unclaimed", TotalItems := unclaimedItems.length,
      AverageDaysUnclaimed := round2 avgDays },
    { Status := "Claimed", TotalItems := claimedItems.length,
      AverageDaysUnclaimed := 0 }])

/-- The write surface of the system, for stating whole-system invariants:
one constructor per endpoint.  The GET endpoints only SELECT. -/
inductive Op where
  | registerItem (d : ItemRequest) (now : ℚ)
  | approveClaimOp (cid : Nat) (now : ℚ)
  | listItems (now : ℚ)
  | listClaims
  | metrics (now : ℚ)
  | listEmployees

/-- The store after one request. -/
def step (db : DB) : Op → DB
  | .registerItem d now => (add_item db d now).1
  | .approveClaimOp cid now => (approve_claim db cid now).1
  | .listItems now => (get_items db now).1
  | .metrics now => (get_metrics db now).1
  | .listClaims => db
  | .listEmployees => db

/-- The store after a sequence of requests. -/
def runOps (db : DB) (ops : List Op) : DB := ops.foldl step db

/-- ratFloor agrees with the Mathlib floor. -/
theorem ratFloor_eq (q : ℚ) : ratFloor q = ⌊q⌋ :=
  Rat.floor_def.symm

/-- On nonnegative rationals, truncation toward zero is the floor. -/
theorem castInt_eq_floor {q : ℚ} (h : 0 ≤ q) : castInt q = ⌊q⌋ := by
  rw [castInt, Rat.floor_def]
  exact Int.tdiv_eq_ediv (Rat.num_nonneg.mpr h) (Int.natCast_nonneg _)

/-- castInt written through the Mathlib floor: truncation toward zero. -/
theorem castInt_eq_ite_floor (q : ℚ) : castInt q = if 0 ≤ q then ⌊q⌋ else -⌊-q⌋ := by
  rcases le_or_lt 0 q with h | h
  · rw [if_pos h, castInt_eq_floor h]
  · rw [if_neg (not_le.mpr h), ← castInt_eq_floor (by linarith : (0 : ℚ) ≤ -q),
      castInt, castInt, Rat.neg_num, Rat.neg_den, Int.neg_tdiv, neg_neg]

/-- Sample store used to instantiate the theorems: one unclaimed item,
two pending claims on it, one employee. -/
def sampleItem : Item :=
  { id := 1, name := "Wallet", category := "Accessories",
    description := "Brown leather wallet", color := "Brown",
    dateFound := 100, foundAt := "Library", isClaimed := false,
    dateUpdated := 100 }

def sampleClaim : Claim :=
  { id := 1, itemID := 1, claimDate := 101, verificationCode := "VC123",
    ownerFirstName := "Alice", ownerLastName := "Smith",
    verificationStatus := .Pending, handledBy := none }

def sampleClaim2 : Claim :=
  { id := 2, itemID := 1, claimDate := 102, verificationCode := "VC456",
    ownerFirstName := "Bob", ownerLastName := "Jones",
    verificationStatus := .Pending, handledBy := none }

def sampleEmployee : Employee :=
  { id := 1, firstName := "Carol", lastName := "White",
    position := "Clerk", itemsManaged := 3 }

def sampleDB : DB :=
  { items := [sampleItem], claims := [sampleClaim, sampleClaim2],
    itemStatus := [], employees := [sampleEmployee] }

def emptyDB : DB := { items := [], claims := [], itemStatus := [], employees := [] }

/-- A valid registration request. -/
def sampleReq : ItemRequest :=
  { itemName := some "Umbrella", itemCategory := some "Accessories",
    color := some "Black", itemDescription := some "Long black umbrella",
    dateFound := some 99, FoundAt := some "Cafeteria" }

/-- A registration request whose itemName key is present but holds the
empty string. -/
def blankNameReq : ItemRequest :=
  { itemName := some "", itemCategory := some "Electronics",
    color := some "Black", itemDescription := some "Small phone",
    dateFound := some 99, FoundAt := some "Cafeteria" }

/-- An item whose recorded dateFound lies half a day in the future of the
time at which the listing runs. -/
def futureItem : Item :=
  { id := 7, name := "Badge", category := "ID", description := "Staff badge",
    color := "Blue", dateFound := 1/2, foundAt := "Gate", isClaimed := false,
    dateUpdated := 0 }

def futureDB : DB :=
  { items := [futureItem], claims := [], itemStatus := [], employees := [] }

/-- The row update of the claim UPDATE keeps the id column. -/
theorem approveClaimUpdate_id (cid : Nat) (c : Claim) :
    (approveClaimUpdate cid c).id = c.id := by
  rw [approveClaimUpdate]; split <;> rfl

/-- The row update of the item UPDATE keeps the id column. -/
theorem approveItemUpdate_id (iid : Nat) (now : ℚ) (i : Item) :
    (approveItemUpdate iid now i).id = i.id := by
  rw [approveItemUpdate]; split <;> rfl

theorem approveClaimUpdate_of_eq {cid : Nat} {c : Claim} (h : c.id = cid) :
    approveClaimUpdate cid c = { c with verificationStatus := .Approved } := by
  rw [approveClaimUpdate, if_pos h]

theorem approveClaimUpdate_of_ne {cid : Nat} {c : Claim} (h : ¬ c.id = cid) :
    approveClaimUpdate cid c = c := by
  rw [approveClaimUpdate, if_neg h]

theorem approveItemUpdate_of_eq {iid : Nat} {now : ℚ} {i : Item} (h : i.id = iid) :
    approveItemUpdate iid now i = { i with isClaimed := true, dateUpdated := now } := by
  rw [approveItemUpdate, if_pos h]

theorem approveItemUpdate_of_ne {iid : Nat} {now : ℚ} {i : Item} (h : ¬ i.id = iid) :
    approveItemUpdate iid now i = i := by
  rw [approveItemUpdate, if_neg h]

/-- The claim UPDATE leaves the id column of every row unchanged. -/
theorem map_approveClaimUpdate_ids (cid : Nat) (l : List Claim) :
    (l.map (approveClaimUpdate cid)).map Claim.id = l.map Claim.id := by
  induction l with
  | nil => rfl
  | cons a t ih => simp [List.map_cons, approveClaimUpdate_id, ih]

/-- With unique claim ids, the WHERE id = cid AND verificationStatus =
Pending lookup returns exactly the pending claim bearing that id. -/
theorem find_pending_eq (l : List Claim) (cid : Nat) (c : Claim)
    (hnd : (l.map Claim.id).Nodup) (hc : c ∈ l) (hid : c.id = cid)
    (hp : c.verificationStatus = .Pending) :
    l.find? (fun x => decide (x.id = cid ∧ x.verificationStatus = .Pending))
      = some c := by
  induction l with
  | nil => cases hc
  | cons a t ih =>
    rcases List.mem_cons.mp hc with rfl | hct
    · rw [List.find?_cons_of_pos]
      simp [hid, hp]
    · rw [List.map_cons, List.nodup_cons] at hnd
      have hane : ¬ (a.id = cid ∧ a.verificationStatus = .Pending) := by
        rintro ⟨he, -⟩
        exact hnd.1 (by rw [he, ← hid]; exact List.mem_map_of_mem _ hct)
      rw [List.find?_cons_of_neg _ (by simpa using hane)]
      exact ih hnd.2 hct

/-- Shape of a successful approval: the three writes committed together. -/
theorem approve_tx_ok (db : DB) (cid : Nat) (now : ℚ) (c : Claim)
    (hnd : (db.claims.map Claim.id).Nodup) (hc : c ∈ db.claims)
    (hid : c.id = cid) (hp : c.verificationStatus = .Pending) :
    approve_claim db cid now =
      ({ db with
          claims := db.claims.map (approveClaimUpdate cid),
          items := db.items.map (approveItemUpdate c.itemID now),
          itemStatus := db.itemStatus ++
            [{ itemID := c.itemID, status := "Claimed", statusDate := now }] },
       .ok cid c.itemID) := by
  rw [approve_claim, approve_claim_tx, find_pending_eq db.claims cid c hnd hc hid hp]
  rfl

/-- A storage failure at any of the three writes rolls the whole
transaction back and surfaces a storage error. -/
theorem approve_tx_fail (db : DB) (cid : Nat) (now : ℚ) (c : Claim)
    (s : WriteStep)
    (hnd : (db.claims.map Claim.id).Nodup) (hc : c ∈ db.claims)
    (hid : c.id = cid) (hp : c.verificationStatus = .Pending) :
    approve_claim_tx db cid now (some s) = (db, .storageError) := by
  rw [approve_claim_tx, find_pending_eq db.claims cid c hnd hc hid hp]
  cases s <;> rfl

/-- When no pending claim bears the requested id the approval leaves the
store untouched and reports notFound, whatever failure is injected. -/
theorem approve_tx_notFound (db : DB) (cid : Nat) (now : ℚ)
    (failAt : Option WriteStep)
    (h : ∀ c ∈ db.claims, c.id = cid → c.verificationStatus ≠ .Pending) :
    approve_claim_tx db cid now failAt = (db, .notFound) := by
  have hn : db.claims.find?
      (fun x => decide (x.id = cid ∧ x.verificationStatus = .Pending)) = none := by
    refine List.find?_eq_none.mpr ?_
    intro x hx
    simp only [decide_eq_true_eq, not_and]
    exact h x hx
  rw [approve_claim_tx, hn]

/-- C1: approving a pending claim sets its status to Approved, marks the
referenced item claimed with a refreshed last-updated timestamp, appends
exactly one ItemStatus row for the item labelled Claimed, and the writes
are atomic: a storage failure at any of the three writes rolls the store
back to the pre-approval state and reports a storage error, so every
reachable outcome is either all four changes or none of them. -/
theorem approve_pending_claim_atomic
    (db : DB) (cid : Nat) (now : ℚ) (c : Claim) (it : Item)
    (hnd : (db.claims.map Claim.id).Nodup)
    (hc : c ∈ db.claims) (hid : c.id = cid)
    (hp : c.verificationStatus = .Pending)
    (hit : it ∈ db.items) (hitid : it.id = c.itemID) :
    (approve_claim db cid now).2 = .ok cid c.itemID
    ∧ (∃ c2 ∈ (approve_claim db cid now).1.claims,
        c2.id = cid ∧ c2.verificationStatus = .Approved)
    ∧ (∀ c2 ∈ (approve_claim db cid now).1.claims,
        c2.id = cid → c2.verificationStatus = .Approved)
    ∧ (∃ i2 ∈ (approve_claim db cid now).1.items,
        i2.id = c.itemID ∧ i2.isClaimed = true ∧ i2.dateUpdated = now)
    ∧ (∀ i2 ∈ (approve_claim db cid now).1.items,
        i2.id = c.itemID → i2.isClaimed = true ∧ i2.dateUpdated = now)
    ∧ (approve_claim db cid now).1.itemStatus = db.itemStatus ++
        [{ itemID := c.itemID, status := "Claimed", statusDate := now }]
    ∧ (∀ s : WriteStep, approve_claim_tx db cid now (some s) = (db, .storageError))
    ∧ (∀ f : Option WriteStep, (approve_claim_tx db cid now f).1 = db
        ∨ approve_claim_tx db cid now f = approve_claim db cid now) := by
  have hok := approve_tx_ok db cid now c hnd hc hid hp
  refine ⟨by rw [hok], ?_, ?_, ?_, ?_, by rw [hok], ?_, ?_⟩
  · rw [hok]
    refine ⟨approveClaimUpdate cid c, List.mem_map_of_mem _ hc, ?_, ?_⟩
    · rw [approveClaimUpdate_id, hid]
    · rw [approveClaimUpdate_of_eq hid]
  · rw [hok]
    intro c2 hc2 hcid2
    rcases List.mem_map.mp hc2 with ⟨a, ha, rfl⟩
    by_cases hac : a.id = cid
    · rw [approveClaimUpdate_of_eq hac]
    · rw [approveClaimUpdate_of_ne hac] at hcid2
      exact absurd hcid2 hac
  · rw [hok]
    refine ⟨approveItemUpdate c.itemID now it, List.mem_map_of_mem _ hit, ?_⟩
    rw [approveItemUpdate_of_eq hitid]
    exact ⟨hitid, rfl, rfl⟩
  · rw [hok]
    intro i2 hi2 hiid2
    rcases List.mem_map.mp hi2 with ⟨a, ha, rfl⟩
    by_cases hai : a.id = c.itemID
    · rw [approveItemUpdate_of_eq hai]
      exact ⟨rfl, rfl⟩
    · rw [approveItemUpdate_of_ne hai] at hiid2
      exact absurd hiid2 hai
  · intro s
    exact approve_tx_fail db cid now c s hnd hc hid hp
  · intro f
    cases f with
    | none => exact Or.inr rfl
    | some s => exact Or.inl (by rw [approve_tx_fail db cid now c s hnd hc hid hp])

/-- C2: approving an id that belongs to no claim, or only to claims
already Approved or Rejected, leaves the whole store unchanged and
returns the notFound outcome, sent with HTTP 404. -/
theorem approve_claim_not_pending_noop (db : DB) (cid : Nat) (now : ℚ)
    (h : ∀ c ∈ db.claims, c.id = cid → c.verificationStatus ≠ .Pending) :
    approve_claim db cid now = (db, .notFound)
    ∧ approveHttpStatus (approve_claim db cid now).2 = 404 := by
  have hn := approve_tx_notFound db cid now none h
  exact ⟨hn, by rw [approve_claim, hn]; rfl⟩

/-- C3: two approvals of the same claim id, serialized by the store
transaction in either order (both orders are the same composition),
give exactly one success and one notFound, and the final store equals
the store after the single successful approval. -/
theorem approve_same_claim_twice_one_success
    (db : DB) (cid : Nat) (now1 now2 : ℚ) (c : Claim)
    (hnd : (db.claims.map Claim.id).Nodup)
    (hc : c ∈ db.claims) (hid : c.id = cid)
    (hp : c.verificationStatus = .Pending) :
    (approve_claim db cid now1).2 = .ok cid c.itemID
    ∧ approve_claim (approve_claim db cid now1).1 cid now2
        = ((approve_claim db cid now1).1, .notFound) := by
  have hok := approve_tx_ok db cid now1 c hnd hc hid hp
  constructor
  · rw [hok]
  · apply approve_tx_notFound
    intro c2 hc2 hcid2
    rw [hok] at hc2
    rcases List.mem_map.mp hc2 with ⟨a, ha, rfl⟩
    by_cases hac : a.id = cid
    · rw [approveClaimUpdate_of_eq hac]
      intro hcontra
      cases hcontra
    · rw [approveClaimUpdate_of_ne hac] at hcid2
      exact absurd hcid2 hac

/-- C9: the approval writes never touch the Employees table (on success
or on any injected failure), leave every other claim row and every other
item row exactly as they were, change the approved claim only in its
status column and the referenced item only in its claimed flag and
timestamp, and append exactly one ItemStatus row. -/
theorem approve_claim_frame
    (db : DB) (cid : Nat) (now : ℚ) (c : Claim)
    (hnd : (db.claims.map Claim.id).Nodup)
    (hc : c ∈ db.claims) (hid : c.id = cid)
    (hp : c.verificationStatus = .Pending) :
    (approve_claim db cid now).1.employees = db.employees
    ∧ (∀ f : Option WriteStep, (approve_claim_tx db cid now f).1.employees = db.employees)
    ∧ (∀ c2 ∈ db.claims, c2.id ≠ cid → c2 ∈ (approve_claim db cid now).1.claims)
    ∧ (∀ c2 ∈ db.claims, c2.id = cid →
        { c2 with verificationStatus := VStatus.Approved }
          ∈ (approve_claim db cid now).1.claims)
    ∧ (∀ i ∈ db.items, i.id ≠ c.itemID → i ∈ (approve_claim db cid now).1.items)
    ∧ (∀ i ∈ db.items, i.id = c.itemID →
        { i with isClaimed := true, dateUpdated := now }
          ∈ (approve_claim db cid now).1.items)
    ∧ (approve_claim db cid now).1.itemStatus = db.itemStatus ++
        [{ itemID := c.itemID, status := "Claimed", statusDate := now }] := by
  have hok := approve_tx_ok db cid now c hnd hc hid hp
  refine ⟨by rw [hok], ?_, ?_, ?_, ?_, ?_, by rw [hok]⟩
  · intro f
    cases f with
    | none => rw [show approve_claim_tx db cid now none = approve_claim db cid now from rfl, hok]
    | some s => rw [approve_tx_fail db cid now c s hnd hc hid hp]
  · intro c2 hc2 hne
    rw [hok]
    have hm := List.mem_map_of_mem (approveClaimUpdate cid) hc2
    rwa [approveClaimUpdate_of_ne hne] at hm
  · intro c2 hc2 he
    rw [hok]
    have hm := List.mem_map_of_mem (approveClaimUpdate cid) hc2
    rwa [approveClaimUpdate_of_eq he] at hm
  · intro i hi hne
    rw [hok]
    have hm := List.mem_map_of_mem (approveItemUpdate c.itemID now) hi
    rwa [approveItemUpdate_of_ne hne] at hm
  · intro i hi he
    rw [hok]
    have hm := List.mem_map_of_mem (approveItemUpdate c.itemID now) hi
    rwa [approveItemUpdate_of_eq he] at hm

/-- C10: the precondition of approval looks only at the claim status, so
two distinct pending claims on the same item can both be approved: the
second succeeds as well, re-marks the already claimed item and appends a
second Claimed history row for it. -/
theorem approve_two_pending_claims_same_item
    (db : DB) (c1 c2 : Claim) (now1 now2 : ℚ)
    (hnd : (db.claims.map Claim.id).Nodup)
    (h1 : c1 ∈ db.claims) (h2 : c2 ∈ db.claims) (hne : c1.id ≠ c2.id)
    (hp1 : c1.verificationStatus = .Pending)
    (hp2 : c2.verificationStatus = .Pending)
    (hsame : c1.itemID = c2.itemID) :
    (approve_claim db c1.id now1).2 = .ok c1.id c1.itemID
    ∧ (approve_claim (approve_claim db c1.id now1).1 c2.id now2).2
        = .ok c2.id c2.itemID
    ∧ (approve_claim (approve_claim db c1.id now1).1 c2.id now2).1.itemStatus
        = db.itemStatus ++
          [{ itemID := c1.itemID, status := "Claimed", statusDate := now1 },
           { itemID := c1.itemID, status := "Claimed", statusDate := now2 }]
    ∧ (∀ i ∈ (approve_claim (approve_claim db c1.id now1).1 c2.id now2).1.items,
        i.id = c1.itemID → i.isClaimed = true) := by
  have hok1 := approve_tx_ok db c1.id now1 c1 hnd h1 rfl hp1
  have hc2mem : c2 ∈ (approve_claim db c1.id now1).1.claims := by
    rw [hok1]
    have hm := List.mem_map_of_mem (approveClaimUpdate c1.id) h2
    rwa [approveClaimUpdate_of_ne (fun he => hne he.symm)] at hm
  have hnd1 : ((approve_claim db c1.id now1).1.claims.map Claim.id).Nodup := by
    rw [hok1]
    show ((db.claims.map (approveClaimUpdate c1.id)).map Claim.id).Nodup
    rw [map_approveClaimUpdate_ids]
    exact hnd
  have hok2 := approve_tx_ok (approve_claim db c1.id now1).1 c2.id now2 c2
    hnd1 hc2mem rfl hp2
  refine ⟨by rw [hok1], by rw [hok2], ?_, ?_⟩
  · rw [hok2]
    show (approve_claim db c1.id now1).1.itemStatus ++ _ = _
    rw [hok1, ← hsame]
    simp [List.append_assoc]
  · intro i hi hiid
    rw [hok2] at hi
    rcases List.mem_map.mp hi with ⟨a, ha, rfl⟩
    by_cases hai : a.id = c2.itemID
    · rw [approveItemUpdate_of_eq hai]
    · rw [approveItemUpdate_of_ne hai] at hiid ⊢
      exact absurd (hiid.trans hsame) hai

/-- Every existing id is bounded by the running maximum. -/
theorem id_le_foldrMax (l : List Item) (i : Item) (hi : i ∈ l) :
    i.id ≤ l.foldr (fun j m => max j.id m) 0 := by
  induction l with
  | nil => cases hi
  | cons a t ih =>
    rcases List.mem_cons.mp hi with rfl | h
    · exact le_max_left _ _
    · exact le_trans (ih h) (le_max_right _ _)

/-- The id handed to a fresh INSERT differs from every stored id. -/
theorem id_ne_nextRowId (l : List Item) (i : Item) (hi : i ∈ l) :
    i.id ≠ nextRowId l := by
  have h := id_le_foldrMax l i hi
  rw [nextRowId]
  omega

/-- add_item never removes rows: the Items table is only extended. -/
theorem add_item_items_extend (db : DB) (d : ItemRequest) (now : ℚ) :
    ∃ l, (add_item db d now).1.items = db.items ++ l := by
  unfold add_item
  split
  · exact ⟨_, rfl⟩
  · exact ⟨[], (List.append_nil _).symm⟩

/-- Any row present after add_item that was not present before is the
fresh row, and its claimed flag is 0. -/
theorem add_item_new_unclaimed (db : DB) (d : ItemRequest) (now : ℚ)
    (j : Item) (hj : j ∈ (add_item db d now).1.items)
    (hnotold : j ∉ db.items) : j.isClaimed = false := by
  unfold add_item at hj
  split at hj
  · rcases List.mem_append.mp hj with h | h
    · exact absurd h hnotold
    · rw [List.mem_singleton.mp h]
  · exact absurd hj hnotold

/-- C4 (amended): a registration request in which one of the six required
keys is absent is rejected with a Validation error (HTTP 400) and no row
is persisted; a key that is present but blank is not rejected. -/
theorem add_item_missing_field_rejected (db : DB) (d : ItemRequest) (now : ℚ)
    (h : d.itemName = none ∨ d.itemCategory = none ∨ d.color = none
      ∨ d.itemDescription = none ∨ d.dateFound = none ∨ d.FoundAt = none) :
    add_item db d now = (db, .validationError)
    ∧ addItemHttpStatus (add_item db d now).2 = 400 := by
  obtain ⟨f1, f2, f3, f4, f5, f6⟩ := d
  cases f1 <;> cases f2 <;> cases f3 <;> cases f4 <;> cases f5 <;> cases f6 <;>
    simp_all [add_item, addItemHttpStatus]

/-- C4 counterexample: blankNameReq carries all six keys but a blank
itemName; registration nevertheless succeeds and persists a row, where
the claim demands a Validation error and no persisted row. -/
theorem add_item_blank_field_accepted :
    (add_item emptyDB blankNameReq 100).2 ≠ .validationError
    ∧ (add_item emptyDB blankNameReq 100).1.items ≠ [] := by
  constructor <;> decide

/-- C5: a registration request with all six fields present and non-blank
inserts one new Item with claimed flag 0 and last-updated = now, touches
nothing else, and returns HTTP 201 with the created record including the
assigned fresh identifier. -/
theorem add_item_valid_creates_item
    (db : DB) (d : ItemRequest) (now : ℚ)
    (nm cat col desc fa : String) (df : ℚ)
    (h1 : d.itemName = some nm) (h2 : d.itemCategory = some cat)
    (h3 : d.color = some col) (h4 : d.itemDescription = some desc)
    (h5 : d.dateFound = some df) (h6 : d.FoundAt = some fa)
    (hne : nm ≠ "" ∧ cat ≠ "" ∧ col ≠ "" ∧ desc ≠ "" ∧ fa ≠ "") :
    (add_item db d now).1.items = db.items ++
      [{ id := nextRowId db.items, name := nm, category := cat,
         description := desc, color := col, dateFound := df, foundAt := fa,
         isClaimed := false, dateUpdated := now }]
    ∧ (add_item db d now).2 = .created
        { itemID := nextRowId db.items, itemName := nm, itemCategory := cat,
          itemDescription := desc, color := col, dateFound := df,
          FoundAt := fa }
    ∧ addItemHttpStatus (add_item db d now).2 = 201
    ∧ (∀ i ∈ db.items, i.id ≠ nextRowId db.items)
    ∧ (add_item db d now).1.claims = db.claims
    ∧ (add_item db d now).1.itemStatus = db.itemStatus
    ∧ (add_item db d now).1.employees = db.employees := by
  refine ⟨?_, ?_, ?_, fun i hi => id_ne_nextRowId db.items i hi, ?_, ?_, ?_⟩ <;>
    simp [add_item, h1, h2, h3, h4, h5, h6, addItemHttpStatus]

/-- The approval either leaves the Items table alone or applies the item
UPDATE row function to every row. -/
theorem approve_items_shape (db : DB) (cid : Nat) (now : ℚ) :
    (approve_claim db cid now).1.items = db.items
    ∨ ∃ iid, (approve_claim db cid now).1.items
        = db.items.map (approveItemUpdate iid now) := by
  rw [approve_claim, approve_claim_tx]
  split
  · exact Or.inl rfl
  · exact Or.inr ⟨_, rfl⟩

/-- One request never lowers a claimed flag: any item claimed before is
still claimed (under its id) after the request. -/
theorem step_claimed_mono (db : DB) (op : Op) (i : Item)
    (hi : i ∈ db.items) (hcl : i.isClaimed = true) :
    ∃ j ∈ (step db op).items, j.id = i.id ∧ j.isClaimed = true := by
  cases op with
  | registerItem d now =>
    rcases add_item_items_extend db d now with ⟨l, hl⟩
    refine ⟨i, ?_, rfl, hcl⟩
    show i ∈ (add_item db d now).1.items
    rw [hl]
    exact List.mem_append_left _ hi
  | approveClaimOp cid now =>
    rcases approve_items_shape db cid now with h | ⟨iid, h⟩
    · refine ⟨i, ?_, rfl, hcl⟩
      show i ∈ (approve_claim db cid now).1.items
      rw [h]
      exact hi
    · refine ⟨approveItemUpdate iid now i, ?_, approveItemUpdate_id iid now i, ?_⟩
      · show approveItemUpdate iid now i ∈ (approve_claim db cid now).1.items
        rw [h]
        exact List.mem_map_of_mem _ hi
      · rw [approveItemUpdate]
        split
        · rfl
        · exact hcl
  | listItems now => exact ⟨i, hi, rfl, hcl⟩
  | listClaims => exact ⟨i, hi, rfl, hcl⟩
  | metrics now => exact ⟨i, hi, rfl, hcl⟩
  | listEmployees => exact ⟨i, hi, rfl, hcl⟩

/-- step_claimed_mono extended to any sequence of requests. -/
theorem runOps_claimed_mono (ops : List Op) (db : DB) (i : Item)
    (hi : i ∈ db.items) (hcl : i.isClaimed = true) :
    ∃ j ∈ (runOps db ops).items, j.id = i.id ∧ j.isClaimed = true := by
  induction ops generalizing db i with
  | nil => exact ⟨i, hi, rfl, hcl⟩
  | cons op t ih =>
    rcases step_claimed_mono db op i hi hcl with ⟨j, hj, hjid, hjcl⟩
    rcases ih (step db op) j hj hjcl with ⟨k, hk, hkid, hkcl⟩
    exact ⟨k, hk, hkid.trans hjid, hkcl⟩

/-- C8: across any sequence of requests the claimed flag of an item only
moves from 0 to 1, never back: a claimed item stays claimed under its id
through every further request, and a freshly registered row always starts
with the flag 0. -/
theorem claimed_flag_monotone (ops : List Op) (db : DB) :
    (∀ i ∈ db.items, i.isClaimed = true →
      ∃ j ∈ (runOps db ops).items, j.id = i.id ∧ j.isClaimed = true)
    ∧ (∀ (d : ItemRequest) (now : ℚ) (j : Item),
        j ∈ (add_item db d now).1.items → j ∉ db.items →
          j.isClaimed = false) :=
  ⟨fun i hi hcl => runOps_claimed_mono ops db i hi hcl,
   fun d now j hj hn => add_item_new_unclaimed db d now j hj hn⟩

/-- C6 (amended): the listing is a pure read returning exactly the
unclaimed items, ordered by date found descending, each annotated with
DaysUnclaimed equal to the truncation toward zero of the day difference;
for items whose date found is not in the future this equals the floor and
is non-negative. -/
theorem get_items_unclaimed_sorted_annotated (db : DB) (now : ℚ) :
    (get_items db now).1 = db
    ∧ ((get_items db now).2).Perm
        ((db.items.filter (fun i => i.isClaimed = false)).map (itemView now))
    ∧ ((get_items db now).2).Pairwise (fun a b => b.dateFound ≤ a.dateFound)
    ∧ (∀ v ∈ (get_items db now).2,
        v.isClaimed = false ∧ v.DaysUnclaimed = castInt (now - v.dateFound))
    ∧ (∀ v ∈ (get_items db now).2, v.dateFound ≤ now →
        v.DaysUnclaimed = ⌊now - v.dateFound⌋ ∧ 0 ≤ v.DaysUnclaimed) := by
  refine ⟨rfl, ?_, ?_, ?_, ?_⟩
  · exact (List.mergeSort_perm _ _).map (itemView now)
  · show (((db.items.filter (fun i => i.isClaimed = false)).mergeSort
        (fun a b => decide (b.dateFound ≤ a.dateFound))).map
          (itemView now)).Pairwise (fun a b => b.dateFound ≤ a.dateFound)
    rw [List.pairwise_map]
    refine List.Pairwise.imp ?_
      (List.sorted_mergeSort ?_ ?_
        (db.items.filter (fun i => i.isClaimed = false)))
    · intro a b hab
      exact of_decide_eq_true hab
    · intro a b c hab hbc
      exact decide_eq_true
        (le_trans (of_decide_eq_true hbc) (of_decide_eq_true hab))
    · intro a b
      rcases le_total b.dateFound a.dateFound with h | h <;> simp [h]
  · intro v hv
    rcases List.mem_map.mp hv with ⟨i, hi, rfl⟩
    have hfil := List.mem_filter.mp (List.mem_mergeSort.mp hi)
    exact ⟨of_decide_eq_true hfil.2, rfl⟩
  · intro v hv hle
    rcases List.mem_map.mp hv with ⟨i, hi, rfl⟩
    have h0 : (0 : ℚ) ≤ now - (itemView now i).dateFound := by linarith
    have hfl : (itemView now i).DaysUnclaimed = ⌊now - (itemView now i).dateFound⌋ :=
      castInt_eq_floor h0
    exact ⟨hfl, hfl ▸ (Int.floor_nonneg.mpr h0)⟩

/-- C6 counterexample: in futureDB at time 0 the single listed item is
annotated with DaysUnclaimed = 0 (truncation toward zero of -1/2), while
the floor of the day difference demanded by the claim is -1. -/
theorem get_items_days_not_floor :
    (get_items futureDB 0).2.map ItemView.DaysUnclaimed = [0]
    ∧ ⌊(0 : ℚ) - futureItem.dateFound⌋ = -1 := by
  have hcast : castInt (-(2⁻¹) : ℚ) = 0 := by
    rw [castInt_eq_ite_floor, if_neg (by norm_num), neg_neg,
      show ⌊(2⁻¹ : ℚ)⌋ = 0 from by
        rw [Int.floor_eq_iff]; constructor <;> norm_num]
    exact neg_zero
  constructor
  · simp [get_items, futureDB, futureItem, itemView, hcast]
  · show ⌊(0 : ℚ) - futureItem.dateFound⌋ = -1
    rw [show futureItem.dateFound = 1/2 from rfl, zero_sub, Int.floor_eq_iff]
    constructor <;> norm_num

/-- Folding additions of f over a list starting at 0 is the sum of the
mapped list. -/
theorem foldr_add_eq_sum_map (l : List Item) (f : Item → ℚ) :
    l.foldr (fun i s => s + f i) 0 = (l.map f).sum := by
  induction l with
  | nil => rfl
  | cons a t ih => simp [List.sum_cons, ih, add_comm]

theorem roundHalfEven_zero : roundHalfEven 0 = 0 := by
  have h : ratFloor (0 : ℚ) = 0 := rfl
  rw [roundHalfEven, h]
  norm_num

theorem round2_zero : round2 0 = 0 := by
  rw [round2, zero_mul, roundHalfEven_zero]
  norm_num

/-- C7: the metrics endpoint is a pure read returning exactly two entries
in the fixed order Unclaimed then Claimed, carrying the unclaimed count
with the rounded average age of the unclaimed items (0 when there are
none) and the claimed count with average reported as 0. -/
theorem get_metrics_two_buckets (db : DB) (now : ℚ) :
    (get_metrics db now).1 = db
    ∧ (get_metrics db now).2.length = 2
    ∧ (get_metrics db now).2.map MetricEntry.Status = ["Unclaimed", "Claimed"]
    ∧ (get_metrics db now).2.map MetricEntry.TotalItems
        = [db.items.countP (fun i => i.isClaimed = false),
           db.items.countP (fun i => i.isClaimed = true)]
    ∧ (∀ u ∈ (get_metrics db now).2, u.Status = "Unclaimed" →
        ((db.items.filter (fun i => i.isClaimed = false)).length ≠ 0 →
          u.AverageDaysUnclaimed = round2
            (((db.items.filter (fun i => i.isClaimed = false)).map
                (fun i => now - i.dateFound)).sum
              / ((db.items.filter (fun i => i.isClaimed = false)).length : ℚ)))
        ∧ ((db.items.filter (fun i => i.isClaimed = false)).length = 0 →
          u.AverageDaysUnclaimed = 0))
    ∧ (∀ cl ∈ (get_metrics db now).2, cl.Status = "Claimed" →
        cl.AverageDaysUnclaimed = 0) := by
  refine ⟨rfl, rfl, rfl, ?_, ?_, ?_⟩
  · show [(db.items.filter (fun i => i.isClaimed = false)).length,
        (db.items.filter (fun i => i.isClaimed = true)).length]
      = [db.items.countP (fun i => i.isClaimed = false),
         db.items.countP (fun i => i.isClaimed = true)]
    rw [List.countP_eq_length_filter, List.countP_eq_length_filter]
  · intro u hu hst
    rcases List.mem_cons.mp hu with rfl | hu2
    · constructor
      · intro hne
        show round2 (if (db.items.filter (fun i => i.isClaimed = false)).length = 0
            then 0
            else (db.items.filter (fun i => i.isClaimed = false)).foldr
              (fun i s => s + (now - i.dateFound)) 0
              / ((db.items.filter (fun i => i.isClaimed = false)).length : ℚ)) = _
        rw [if_neg hne, foldr_add_eq_sum_map]
      · intro hz
        show round2 (if (db.items.filter (fun i => i.isClaimed = false)).length = 0
            then 0
            else (db.items.filter (fun i => i.isClaimed = false)).foldr
              (fun i s => s + (now - i.dateFound)) 0
              / ((db.items.filter (fun i => i.isClaimed = false)).length : ℚ)) = 0
        rw [if_pos hz, round2_zero]
    · rcases List.mem_singleton.mp hu2 with rfl
      simp at hst
  · intro cl hcl hst
    rcases List.mem_cons.mp hcl with rfl | hcl2
    · simp at hst
    · rcases List.mem_singleton.mp hcl2 with rfl
      rfl

/-- A registration request with the itemName key absent. -/
def missingReq : ItemRequest :=
  { itemName := none, itemCategory := some "Electronics",
    color := some "Black", itemDescription := some "Small phone",
    dateFound := some 99, FoundAt := some "Cafeteria" }

/-- Witness instantiating C1 on the sample store. -/
theorem approve_pending_claim_atomic_witness :
    ((sampleDB.claims.map Claim.id).Nodup
      ∧ sampleClaim ∈ sampleDB.claims
      ∧ sampleClaim.verificationStatus = .Pending
      ∧ sampleItem ∈ sampleDB.items)
    ∧ ((approve_claim sampleDB 1 105).2 = .ok 1 sampleClaim.itemID
      ∧ (∃ c2 ∈ (approve_claim sampleDB 1 105).1.claims,
          c2.id = 1 ∧ c2.verificationStatus = .Approved)
      ∧ (∀ c2 ∈ (approve_claim sampleDB 1 105).1.claims,
          c2.id = 1 → c2.verificationStatus = .Approved)
      ∧ (∃ i2 ∈ (approve_claim sampleDB 1 105).1.items,
          i2.id = sampleClaim.itemID ∧ i2.isClaimed = true
            ∧ i2.dateUpdated = 105)
      ∧ (∀ i2 ∈ (approve_claim sampleDB 1 105).1.items,
          i2.id = sampleClaim.itemID → i2.isClaimed = true
            ∧ i2.dateUpdated = 105)
      ∧ (approve_claim sampleDB 1 105).1.itemStatus = sampleDB.itemStatus ++
          [{ itemID := sampleClaim.itemID, status := "Claimed",
             statusDate := 105 }]
      ∧ (∀ s : WriteStep,
          approve_claim_tx sampleDB 1 105 (some s) = (sampleDB, .storageError))
      ∧ (∀ f : Option WriteStep, (approve_claim_tx sampleDB 1 105 f).1 = sampleDB
          ∨ approve_claim_tx sampleDB 1 105 f = approve_claim sampleDB 1 105)) :=
  ⟨⟨by decide, by decide, by decide, by decide⟩,
   approve_pending_claim_atomic sampleDB 1 105 sampleClaim sampleItem
     (by decide) (by decide) rfl (by decide) (by decide) rfl⟩

/-- Witness instantiating C2 on the sample store with an unused id. -/
theorem approve_claim_not_pending_noop_witness :
    (∀ c ∈ sampleDB.claims, c.id = 99 → c.verificationStatus ≠ VStatus.Pending)
    ∧ (approve_claim sampleDB 99 105 = (sampleDB, .notFound)
      ∧ approveHttpStatus (approve_claim sampleDB 99 105).2 = 404) :=
  ⟨by decide, approve_claim_not_pending_noop sampleDB 99 105 (by decide)⟩

/-- Witness instantiating C3 on the sample store. -/
theorem approve_same_claim_twice_one_success_witness :
    ((sampleDB.claims.map Claim.id).Nodup ∧ sampleClaim ∈ sampleDB.claims
      ∧ sampleClaim.verificationStatus = .Pending)
    ∧ ((approve_claim sampleDB 1 105).2 = .ok 1 sampleClaim.itemID
      ∧ approve_claim (approve_claim sampleDB 1 105).1 1 106
          = ((approve_claim sampleDB 1 105).1, .notFound)) :=
  ⟨⟨by decide, by decide, by decide⟩,
   approve_same_claim_twice_one_success sampleDB 1 105 106 sampleClaim
     (by decide) (by decide) rfl (by decide)⟩

/-- Witness instantiating the amended C4 on a request missing itemName. -/
theorem add_item_missing_field_rejected_witness :
    (missingReq.itemName = none ∨ missingReq.itemCategory = none
      ∨ missingReq.color = none ∨ missingReq.itemDescription = none
      ∨ missingReq.dateFound = none ∨ missingReq.FoundAt = none)
    ∧ (add_item emptyDB missingReq 100 = (emptyDB, .validationError)
      ∧ addItemHttpStatus (add_item emptyDB missingReq 100).2 = 400) :=
  ⟨Or.inl rfl,
   add_item_missing_field_rejected emptyDB missingReq 100 (Or.inl rfl)⟩

/-- Witness instantiating C5 on a fully populated request. -/
theorem add_item_valid_creates_item_witness :
    (add_item emptyDB sampleReq 100).1.items = emptyDB.items ++
      [{ id := nextRowId emptyDB.items, name := "Umbrella",
         category := "Accessories", description := "Long black umbrella",
         color := "Black", dateFound := 99, foundAt := "Cafeteria",
         isClaimed := false, dateUpdated := 100 }]
    ∧ (add_item emptyDB sampleReq 100).2 = .created
        { itemID := nextRowId emptyDB.items, itemName := "Umbrella",
          itemCategory := "Accessories",
          itemDescription := "Long black umbrella", color := "Black",
          dateFound := 99, FoundAt := "Cafeteria" }
    ∧ addItemHttpStatus (add_item emptyDB sampleReq 100).2 = 201
    ∧ (∀ i ∈ emptyDB.items, i.id ≠ nextRowId emptyDB.items)
    ∧ (add_item emptyDB sampleReq 100).1.claims = emptyDB.claims
    ∧ (add_item emptyDB sampleReq 100).1.itemStatus = emptyDB.itemStatus
    ∧ (add_item emptyDB sampleReq 100).1.employees = emptyDB.employees :=
  add_item_valid_creates_item emptyDB sampleReq 100 "Umbrella" "Accessories"
    "Black" "Long black umbrella" "Cafeteria" 99 rfl rfl rfl rfl rfl rfl
    (by decide)

/-- Witness instantiating the amended C6 on the sample store. -/
theorem get_items_unclaimed_sorted_annotated_witness :
    (get_items sampleDB 105).1 = sampleDB
    ∧ ((get_items sampleDB 105).2).Perm
        ((sampleDB.items.filter (fun i => i.isClaimed = false)).map
          (itemView 105))
    ∧ ((get_items sampleDB 105).2).Pairwise
        (fun a b => b.dateFound ≤ a.dateFound)
    ∧ (∀ v ∈ (get_items sampleDB 105).2,
        v.isClaimed = false ∧ v.DaysUnclaimed = castInt (105 - v.dateFound))
    ∧ (∀ v ∈ (get_items sampleDB 105).2, v.dateFound ≤ 105 →
        v.DaysUnclaimed = ⌊(105 : ℚ) - v.dateFound⌋ ∧ 0 ≤ v.DaysUnclaimed) :=
  get_items_unclaimed_sorted_annotated sampleDB 105

/-- Witness instantiating C7 on the sample store. -/
theorem get_metrics_two_buckets_witness :
    (get_metrics sampleDB 105).1 = sampleDB
    ∧ (get_metrics sampleDB 105).2.length = 2
    ∧ (get_metrics sampleDB 105).2.map MetricEntry.Status
        = ["Unclaimed", "Claimed"]
    ∧ (get_metrics sampleDB 105).2.map MetricEntry.TotalItems
        = [sampleDB.items.countP (fun i => i.isClaimed = false),
           sampleDB.items.countP (fun i => i.isClaimed = true)]
    ∧ (∀ u ∈ (get_metrics sampleDB 105).2, u.Status = "Unclaimed" →
        ((sampleDB.items.filter (fun i => i.isClaimed = false)).length ≠ 0 →
          u.AverageDaysUnclaimed = round2
            (((sampleDB.items.filter (fun i => i.isClaimed = false)).map
                (fun i => 105 - i.dateFound)).sum
              / ((sampleDB.items.filter
                  (fun i => i.isClaimed = false)).length : ℚ)))
        ∧ ((sampleDB.items.filter (fun i => i.isClaimed = false)).length = 0 →
          u.AverageDaysUnclaimed = 0))
    ∧ (∀ cl ∈ (get_metrics sampleDB 105).2, cl.Status = "Claimed" →
        cl.AverageDaysUnclaimed = 0) :=
  get_metrics_two_buckets sampleDB 105

/-- Witness instantiating C8 on the sample store. -/
theorem claimed_flag_monotone_witness :
    (∀ i ∈ sampleDB.items, i.isClaimed = true →
      ∃ j ∈ (runOps sampleDB []).items, j.id = i.id ∧ j.isClaimed = true)
    ∧ (∀ (d : ItemRequest) (now : ℚ) (j : Item),
        j ∈ (add_item sampleDB d now).1.items → j ∉ sampleDB.items →
          j.isClaimed = false) :=
  claimed_flag_monotone [] sampleDB

/-- Witness instantiating C9 on the sample store. -/
theorem approve_claim_frame_witness :
    ((sampleDB.claims.map Claim.id).Nodup ∧ sampleClaim ∈ sampleDB.claims
      ∧ sampleClaim.verificationStatus = .Pending)
    ∧ ((approve_claim sampleDB 1 105).1.employees = sampleDB.employees
      ∧ (∀ f : Option WriteStep,
          (approve_claim_tx sampleDB 1 105 f).1.employees = sampleDB.employees)
      ∧ (∀ c2 ∈ sampleDB.claims, c2.id ≠ 1 →
          c2 ∈ (approve_claim sampleDB 1 105).1.claims)
      ∧ (∀ c2 ∈ sampleDB.claims, c2.id = 1 →
          { c2 with verificationStatus := VStatus.Approved }
            ∈ (approve_claim sampleDB 1 105).1.claims)
      ∧ (∀ i ∈ sampleDB.items, i.id ≠ sampleClaim.itemID →
          i ∈ (approve_claim sampleDB 1 105).1.items)
      ∧ (∀ i ∈ sampleDB.items, i.id = sampleClaim.itemID →
          { i with isClaimed := true, dateUpdated := 105 }
            ∈ (approve_claim sampleDB 1 105).1.items)
      ∧ (approve_claim sampleDB 1 105).1.itemStatus = sampleDB.itemStatus ++
          [{ itemID := sampleClaim.itemID, status := "Claimed",
             statusDate := 105 }]) :=
  ⟨⟨by decide, by decide, by decide⟩,
   approve_claim_frame sampleDB 1 105 sampleClaim
     (by decide) (by decide) rfl (by decide)⟩

/-- Witness instantiating C10 on the sample store, whose two pending
claims both reference item 1. -/
theorem approve_two_pending_claims_same_item_witness :
    ((sampleDB.claims.map Claim.id).Nodup
      ∧ sampleClaim ∈ sampleDB.claims ∧ sampleClaim2 ∈ sampleDB.claims
      ∧ sampleClaim.id ≠ sampleClaim2.id
      ∧ sampleClaim.itemID = sampleClaim2.itemID)
    ∧ ((approve_claim sampleDB sampleClaim.id 105).2
        = .ok sampleClaim.id sampleClaim.itemID
      ∧ (approve_claim (approve_claim sampleDB sampleClaim.id 105).1
          sampleClaim2.id 106).2 = .ok sampleClaim2.id sampleClaim2.itemID
      ∧ (approve_claim (approve_claim sampleDB sampleClaim.id 105).1
          sampleClaim2.id 106).1.itemStatus
          = sampleDB.itemStatus ++
            [{ itemID := sampleClaim.itemID, status := "Claimed",
               statusDate := 105 },
             { itemID := sampleClaim.itemID, status := "Claimed",
               statusDate := 106 }]
      ∧ (∀ i ∈ (approve_claim (approve_claim sampleDB sampleClaim.id 105).1
            sampleClaim2.id 106).1.items,
          i.id = sampleClaim.itemID → i.isClaimed = true)) :=
  ⟨⟨by decide, by decide, by decide, by decide, rfl⟩,
   approve_two_pending_claims_same_item sampleDB sampleClaim sampleClaim2
     105 106 (by decide) (by decide) (by decide) (by decide) (by decide)
     (by decide) rfl⟩

end LostFound
